import Mathlib

set_option maxRecDepth 40000

/-!
Verification of the recommender core of the retail-store dashboard repository
(`recommender_system.py`): the corpus data model, the recommendation generator
`get_recommendations_for_user`, and the cached trainer `train_and_save_model`.

Purchase amounts and estimated ratings are modelled as rationals (the order and
equality structure of the floats used by the source); the logarithmic rating
scaling, which is genuinely transcendental, is modelled over the reals.
-/

/-- A purchase record of the corpus, with the columns the recommender core
reads: `Customer_ID`, `Product_ID`, `Category`, `Subcategory`,
`Purchase_Amount`. -/
structure Row where
  Customer_ID : ℕ
  Product_ID : ℕ
  Category : String
  Subcategory : String
  Purchase_Amount : ℚ
deriving DecidableEq

/-- A recommendation record as returned by `get_recommendations_for_user`:
`{Product_ID, Estimated_Rating, Category, Subcategory, Reason}`. -/
structure Recommendation where
  Product_ID : ℕ
  Estimated_Rating : ℚ
  Category : String
  Subcategory : String
  Reason : String
deriving DecidableEq

/-- Helper for `pandasUnique`: walk the list keeping the first occurrence of
each value, `seen` being the values already emitted. -/
def pandasUniqueAux {α : Type} [DecidableEq α] (seen : List α) : List α → List α
  | [] => []
  | x :: xs => if x ∈ seen then pandasUniqueAux seen xs else x :: pandasUniqueAux (x :: seen) xs

/-- pandas `Series.unique()` / `DataFrame.drop_duplicates()`: the distinct
values of a list in order of first occurrence. -/
def pandasUnique {α : Type} [DecidableEq α] (l : List α) : List α :=
  pandasUniqueAux [] l

/-- Line 72: `all_items = data['Product_ID'].unique()`. -/
def allItems (data : List Row) : List ℕ :=
  pandasUnique (data.map (fun r => r.Product_ID))

/-- Line 73: `user_items = data[data['Customer_ID'] == user_id]['Product_ID'].unique()`. -/
def userItems (data : List Row) (uid : ℕ) : List ℕ :=
  pandasUnique ((data.filter (fun r => r.Customer_ID == uid)).map (fun r => r.Product_ID))

/-- Line 74: `items_to_predict = [item for item in all_items if item not in user_items]`. -/
def itemsToPredict (data : List Row) (uid : ℕ) : List ℕ :=
  (allItems data).filter (fun i => decide (i ∉ userItems data uid))

/-- Lines 77-80: the `(item, model.predict(uid=user_id, iid=item).est)` pairs.
The fitted model is abstracted as a rating function `ℕ → ℕ → ℚ`. -/
def predictions (data : List Row) (uid : ℕ) (model : ℕ → ℕ → ℚ) : List (ℕ × ℚ) :=
  (itemsToPredict data uid).map (fun item => (item, model uid item))

/-- One step of the stable descending sort: insert `x` into an already sorted
list, after every element with a strictly greater rating (so elements with
equal ratings keep their original relative order, as the stable Python
`sorted(..., reverse=True)` does). -/
def insertDesc (x : ℕ × ℚ) : List (ℕ × ℚ) → List (ℕ × ℚ)
  | [] => [x]
  | y :: ys => if x.2 < y.2 then y :: insertDesc x ys else x :: y :: ys

/-- Line 83: `sorted(predictions, key=lambda x: x[1], reverse=True)` of Python,
a stable sort, descending in the estimated rating. -/
def sortDesc : List (ℕ × ℚ) → List (ℕ × ℚ)
  | [] => []
  | x :: xs => insertDesc x (sortDesc xs)

/-- Line 86: `data[['Product_ID', 'Category', 'Subcategory']].drop_duplicates()`
as a list of distinct triples in order of first occurrence. -/
def distinctTriples (data : List Row) : List (ℕ × String × String) :=
  pandasUnique (data.map (fun r => (r.Product_ID, r.Category, r.Subcategory)))

/-- Line 87: `product_details.set_index('Product_ID').T.to_dict()`.
`to_dict` builds the dictionary column by column, so for a duplicated
`Product_ID` each later distinct row overwrites the earlier one: the fold
keeps the last matching triple. -/
def productDetailsDict (data : List Row) (pid : ℕ) : Option (String × String) :=
  (distinctTriples data).foldl (fun acc t => if t.1 == pid then some t.2 else acc) none

/-- Line 111: the category-interest clause. -/
def catClause (c : String) : String :=
  "the customer has shown a strong interest in " ++ c ++ " items previously"

/-- Line 113: the subcategory clause. -/
def subClause (s : String) : String :=
  "specifically within the " ++ s ++ " subcategory"

/-- Comma-group a reversed digit list in blocks of three, for the `,`
format flag of Python. -/
def natDigitsComma : List Char → List Char
  | a :: b :: c :: d :: rest => a :: b :: c :: ',' :: natDigitsComma (d :: rest)
  | l => l

/-- Integer part rendered with thousands separators, as the `,` flag of Python. -/
def intPartString (n : ℕ) : String :=
  String.mk ((natDigitsComma (Nat.toDigits 10 n).reverse).reverse)

/-- Two-digit zero-padded fractional part. -/
def pad2 (n : ℕ) : String :=
  if n < 10 then "0" ++ Nat.repr n else Nat.repr n

/-- Round a rational to the nearest integer (halves up): the floor of
`q + 1/2`, computed as the Euclidean quotient of numerator by (positive)
denominator. -/
def roundQ (q : ℚ) : ℤ :=
  let r : ℚ := q + 1 / 2
  r.num / r.den

/-- The Python `.2f` float format over ℚ: round to hundredths, two decimals. -/
def fmt2 (q : ℚ) : String :=
  let c : ℤ := roundQ (q * 100)
  (if c < 0 then "-" else "") ++ Nat.repr (c.natAbs / 100) ++ "." ++ pad2 (c.natAbs % 100)

/-- The Python `,.2f` float format over ℚ: like `fmt2` but with thousands
separators in the integer part. -/
def fmtMoney (q : ℚ) : String :=
  let c : ℤ := roundQ (q * 100)
  (if c < 0 then "-" else "") ++ intPartString (c.natAbs / 100) ++ "." ++ pad2 (c.natAbs % 100)

/-- Line 115: `popularity_score = subcategory_products['Purchase_Amount'].sum()`,
where `subcategory_products` is the whole corpus filtered to the
recommendation's category and then its subcategory (lines 101-102). -/
def popularityScore (data : List Row) (cat sub : String) : ℚ :=
  (((data.filter (fun r => r.Category == cat)).filter
      (fun r => r.Subcategory == sub)).map (fun r => r.Purchase_Amount)).sum

/-- Line 116: the always-present popularity clause. -/
def popClause (x : ℚ) : String :=
  "this product is highly popular among other customers with total revenue of $" ++ fmtMoney x

/-- Line 118: the always-present predicted-rating clause. -/
def ratingClause (r : ℚ) : String :=
  "the predicted rating for this product is " ++ fmt2 r ++ ", indicating high satisfaction potential"

/-- Lines 104-118: the `reason_parts` list for a recommendation with the given
category, subcategory and estimated rating.  The category clause is guarded by
`user_category_purchases` (the user's rows filtered to the category), the
subcategory clause by `user_subcategory_purchases` (those rows further filtered
to the subcategory). -/
def reasonParts (data : List Row) (uid : ℕ) (cat sub : String) (est : ℚ) : List String :=
  let userPast := data.filter (fun r => r.Customer_ID == uid)
  let userCat := userPast.filter (fun r => r.Category == cat)
  let userSub := userCat.filter (fun r => r.Subcategory == sub)
  (if userCat.isEmpty then [] else [catClause cat])
    ++ (if userSub.isEmpty then [] else [subClause sub])
    ++ [popClause (popularityScore data cat sub), ratingClause est]

/-- Line 120: the fixed reason template, joining the parts with semicolon-space
and wrapping them in the fixed sentence. -/
def mkReason (parts : List String) : String :=
  "Recommended because " ++ String.intercalate "; " parts ++ "."

/-- Lines 89-120: build one detailed recommendation from a `(product, rating)`
pair: attach the dictionary-looked-up category and subcategory and the reason
string. -/
def detailRec (data : List Row) (uid : ℕ) (p : ℕ × ℚ) : Recommendation :=
  let details := (productDetailsDict data p.1).getD ("", "")
  { Product_ID := p.1
    Estimated_Rating := p.2
    Category := details.1
    Subcategory := details.2
    Reason := mkReason (reasonParts data uid details.1 details.2 p.2) }

/-- Lines 59-122: `get_recommendations_for_user(user_id, n, data, model)`. -/
def getRecommendationsForUser (uid : ℕ) (n : ℕ) (data : List Row)
    (model : ℕ → ℕ → ℚ) : List Recommendation :=
  ((sortDesc (predictions data uid model)).take n).map (detailRec data uid)

/-- A dataframe at column granularity (needed to express a missing column):
an association list from column name to column values. -/
def Frame : Type := List (String × List ℚ)

/-- The persisted artifacts: contents of `model.pkl` and `best_params.pkl`
when present. -/
structure Disk (M P : Type) where
  modelFile : Option M
  paramsFile : Option P
deriving DecidableEq

/-- The outcome of `train_and_save_model`: the returned model, the chosen
hyperparameters, the disk state after the call, and whether a grid search
plus fit actually ran. -/
structure TrainResult (M P : Type) where
  model : M
  params : P
  disk : Disk M P
  retrained : Bool
deriving DecidableEq

/-- Lines 8-57: `train_and_save_model(data)`.  The column accesses of lines
19-23 happen first (`Purchase_Amount`, then `Customer_ID` and `Product_ID`);
only then is the artifact-existence check of line 26 made.  The grid search,
train/test split and `SVDpp` fit of lines 33-49 are the external surprise
library, abstracted as `gridFit` over the three raw columns; lines 52-55
persist both artifacts. -/
def train_and_save_model {M P : Type} (gridFit : List ℚ → List ℚ → List ℚ → M × P)
    (disk : Disk M P) (f : Frame) : Except String (TrainResult M P) :=
  match f.lookup "Purchase_Amount", f.lookup "Customer_ID", f.lookup "Product_ID" with
  | some amounts, some custs, some prods =>
    match disk.modelFile, disk.paramsFile with
    | some m, some p => Except.ok ⟨m, p, disk, false⟩
    | none, _ =>
      let mp := gridFit custs prods amounts
      Except.ok ⟨mp.1, mp.2, ⟨some mp.1, some mp.2⟩, true⟩
    | some _, none =>
      let mp := gridFit custs prods amounts
      Except.ok ⟨mp.1, mp.2, ⟨some mp.1, some mp.2⟩, true⟩
  | none, _, _ => Except.error "KeyError: Purchase_Amount"
  | some _, none, _ => Except.error "KeyError: Customer_ID"
  | some _, some _, none => Except.error "KeyError: Product_ID"

/-- All three required columns are present in the frame. -/
def requiredPresent (f : Frame) : Prop :=
  (f.lookup "Customer_ID").isSome = true ∧ (f.lookup "Product_ID").isSome = true
    ∧ (f.lookup "Purchase_Amount").isSome = true

/-- Whether an `Except` result is an error. -/
def isErr {ε α : Type} : Except ε α → Bool
  | Except.error _ => true
  | Except.ok _ => false

/-- Line 19: `np.log1p` over the reals. -/
noncomputable def log1p (a : ℝ) : ℝ := Real.log (1 + a)

/-- Line 19: `data['Purchase_Amount_Scaled'] = np.log1p(data['Purchase_Amount'])`,
the scaled-rating column of the corpus. -/
noncomputable def scaledColumn (amounts : List ℝ) : List ℝ :=
  amounts.map log1p

/-- pandas `Series.min()` of a nonempty column (0 for an empty one). -/
noncomputable def listMin : List ℝ → ℝ
  | [] => 0
  | x :: xs => xs.foldl min x

/-- pandas `Series.max()` of a nonempty column (0 for an empty one). -/
noncomputable def listMax : List ℝ → ℝ
  | [] => 0
  | x :: xs => xs.foldl max x

/-- Line 22: `Reader(rating_scale=(scaled.min(), scaled.max()))` — the bound
passed to the fitting library. -/
noncomputable def ratingScale (scaled : List ℝ) : ℝ × ℝ :=
  (listMin scaled, listMax scaled)

/-- Modelled from the spec: the fitting library's `predict(...).est` clips the
raw estimate into the `rating_scale` interval handed to the `Reader`
("estimated ratings are always clipped/implied within
[min_observed_scaled_rating, max_observed_scaled_rating] by construction of
the rating-scale bound passed to the fitting library").  The clipping itself
lives in the external surprise library, not under `src/`. -/
noncomputable def predictClip (scale : ℝ × ℝ) (raw : ℝ) : ℝ :=
  max scale.1 (min scale.2 raw)

/-- Spec-side definition for claim C7, following the spec's words: the
category and subcategory of the first corpus row whose `Product_ID` matches. -/
def firstMatchDetails (data : List Row) (pid : ℕ) : Option (String × String) :=
  (data.find? (fun r => r.Product_ID == pid)).map (fun r => (r.Category, r.Subcategory))

/-- The category/subcategory pair actually attached by the dictionary lookup:
the last triple with the given product id among the first-occurrence-ordered
distinct `(Product_ID, Category, Subcategory)` triples of the corpus. -/
def lastMatchDetails (data : List Row) (pid : ℕ) : Option (String × String) :=
  ((distinctTriples data).reverse.find? (fun t => t.1 == pid)).map (fun t => t.2)

/-- The constant-1 rating model used for concrete instances. -/
def mOne : ℕ → ℕ → ℚ := fun _ _ => 1

/-- A two-row corpus: customer 1 bought product 10, customer 2 bought
product 20. -/
def corpusW : List Row :=
  [⟨1, 10, "A", "X", 2⟩, ⟨2, 20, "B", "Y", 3⟩]

/-- Corpus for the C2 counterexample: customer 1 purchased in subcategory
"X" (category "A"); the only candidate product for customer 1 sits in
subcategory "X" of a different category "B". -/
def dataC2 : List Row :=
  [⟨1, 10, "A", "X", 5⟩, ⟨2, 20, "B", "X", 5⟩]

/-- Corpus for the C2 amended-claim witness: the candidate product 11 shares
category "A" and subcategory "X" with customer 1's purchase. -/
def dataW2 : List Row :=
  [⟨1, 10, "A", "X", 2⟩, ⟨2, 11, "A", "X", 4⟩]

/-- Corpus for the C7 counterexample: product 1 appears with two different
category/subcategory pairs. -/
def dataC7 : List Row :=
  [⟨2, 1, "A", "X", 1⟩, ⟨2, 1, "B", "Y", 1⟩]

/-- A frame holding all three required columns. -/
def frameW : Frame :=
  [("Customer_ID", [1]), ("Product_ID", [10]), ("Purchase_Amount", [2])]

/-- A frame missing the `Purchase_Amount` column. -/
def frameMissing : Frame :=
  [("Customer_ID", [1]), ("Product_ID", [10])]

/-- A disk with both artifacts present (model 1, hyperparameters 2). -/
def diskW : Disk ℕ ℕ := ⟨some 1, some 2⟩

/-- A disk with no persisted artifacts. -/
def diskEmpty : Disk ℕ ℕ := ⟨none, none⟩

/-- A concrete stand-in for the grid search plus fit. -/
def gW : List ℚ → List ℚ → List ℚ → ℕ × ℕ := fun _ _ _ => (5, 7)

/-- A second, different stand-in trainer. -/
def gW2 : List ℚ → List ℚ → List ℚ → ℕ × ℕ := fun _ _ _ => (9, 9)

/-- The recommendation produced for customer 1 on `corpusW` with the
constant-1 model. -/
def recW : Recommendation :=
  ⟨20, 1, "B", "Y",
    "Recommended because this product is highly popular among other customers with total revenue of $3.00; the predicted rating for this product is 1.00, indicating high satisfaction potential."⟩

/-- The recommendation produced for customer 1 on `dataW2` with the
constant-1 model. -/
def recW2 : Recommendation :=
  ⟨11, 1, "A", "X",
    "Recommended because the customer has shown a strong interest in A items previously; specifically within the X subcategory; this product is highly popular among other customers with total revenue of $6.00; the predicted rating for this product is 1.00, indicating high satisfaction potential."⟩

/-! ### Lemmas about `pandasUnique` -/

theorem mem_pandasUniqueAux {α : Type} [DecidableEq α] (a : α) :
    ∀ (l seen : List α), a ∈ pandasUniqueAux seen l ↔ (a ∈ l ∧ a ∉ seen) := by
  intro l
  induction l with
  | nil => intro seen; simp [pandasUniqueAux]
  | cons x xs ih =>
    intro seen
    by_cases hx : x ∈ seen
    · rw [pandasUniqueAux, if_pos hx, ih]
      constructor
      · rintro ⟨h1, h2⟩; exact ⟨List.mem_cons_of_mem x h1, h2⟩
      · rintro ⟨h1, h2⟩
        rcases List.mem_cons.mp h1 with h | h
        · exact absurd (h ▸ hx) h2
        · exact ⟨h, h2⟩
    · rw [pandasUniqueAux, if_neg hx, List.mem_cons, ih]
      constructor
      · rintro (rfl | ⟨h1, h2⟩)
        · exact ⟨List.mem_cons_self a xs, hx⟩
        · exact ⟨List.mem_cons_of_mem x h1, fun hs => h2 (List.mem_cons_of_mem x hs)⟩
      · rintro ⟨h1, h2⟩
        rcases List.mem_cons.mp h1 with rfl | h1
        · exact Or.inl rfl
        · by_cases hax : a = x
          · exact Or.inl hax
          · refine Or.inr ⟨h1, fun hs => ?_⟩
            rcases List.mem_cons.mp hs with h | h
            · exact hax h
            · exact h2 h

theorem mem_pandasUnique {α : Type} [DecidableEq α] (a : α) (l : List α) :
    a ∈ pandasUnique l ↔ a ∈ l := by
  rw [pandasUnique, mem_pandasUniqueAux]
  simp

theorem nodup_pandasUniqueAux {α : Type} [DecidableEq α] :
    ∀ (l seen : List α), (pandasUniqueAux seen l).Nodup := by
  intro l
  induction l with
  | nil => intro seen; simp [pandasUniqueAux]
  | cons x xs ih =>
    intro seen
    by_cases hx : x ∈ seen
    · rw [pandasUniqueAux, if_pos hx]; exact ih seen
    · rw [pandasUniqueAux, if_neg hx]
      refine List.nodup_cons.mpr ⟨fun hmem => ?_, ih (x :: seen)⟩
      exact ((mem_pandasUniqueAux x xs (x :: seen)).mp hmem).2 (List.mem_cons_self x seen)

theorem nodup_pandasUnique {α : Type} [DecidableEq α] (l : List α) :
    (pandasUnique l).Nodup :=
  nodup_pandasUniqueAux l []

/-! ### Lemmas about the stable descending sort -/

theorem perm_insertDesc (x : ℕ × ℚ) (l : List (ℕ × ℚ)) :
    (insertDesc x l).Perm (x :: l) := by
  induction l with
  | nil => exact List.Perm.refl _
  | cons y ys ih =>
    rw [insertDesc]
    by_cases h : x.2 < y.2
    · rw [if_pos h]
      exact (ih.cons y).trans (List.Perm.swap x y ys)
    · rw [if_neg h]

theorem perm_sortDesc (l : List (ℕ × ℚ)) : (sortDesc l).Perm l := by
  induction l with
  | nil => exact List.Perm.refl _
  | cons x xs ih =>
    rw [sortDesc]
    exact (perm_insertDesc x (sortDesc xs)).trans (ih.cons x)

theorem mem_insertDesc (z x : ℕ × ℚ) (l : List (ℕ × ℚ)) :
    z ∈ insertDesc x l ↔ z = x ∨ z ∈ l := by
  rw [(perm_insertDesc x l).mem_iff, List.mem_cons]

theorem pairwise_insertDesc (x : ℕ × ℚ) (l : List (ℕ × ℚ))
    (h : l.Pairwise (fun a b => b.2 ≤ a.2)) :
    (insertDesc x l).Pairwise (fun a b => b.2 ≤ a.2) := by
  induction l with
  | nil => simp [insertDesc]
  | cons y ys ih =>
    rw [List.pairwise_cons] at h
    rw [insertDesc]
    by_cases hxy : x.2 < y.2
    · rw [if_pos hxy]
      refine List.pairwise_cons.mpr ⟨fun z hz => ?_, ih h.2⟩
      rcases (mem_insertDesc z x ys).mp hz with rfl | hz
      · exact le_of_lt hxy
      · exact h.1 z hz
    · rw [if_neg hxy]
      refine List.pairwise_cons.mpr ⟨fun z hz => ?_, List.pairwise_cons.mpr h⟩
      rcases List.mem_cons.mp hz with rfl | hz
      · exact le_of_not_lt hxy
      · exact le_trans (h.1 z hz) (le_of_not_lt hxy)

theorem pairwise_sortDesc (l : List (ℕ × ℚ)) :
    (sortDesc l).Pairwise (fun a b => b.2 ≤ a.2) := by
  induction l with
  | nil => simp [sortDesc]
  | cons x xs ih => exact pairwise_insertDesc x (sortDesc xs) ih

theorem filter_insertDesc (q : ℚ) (x : ℕ × ℚ) (l : List (ℕ × ℚ)) :
    (insertDesc x l).filter (fun p => p.2 == q) = (x :: l).filter (fun p => p.2 == q) := by
  induction l with
  | nil => rfl
  | cons y ys ih =>
    rw [insertDesc]
    by_cases hxy : x.2 < y.2
    · rw [if_pos hxy]
      by_cases hy : y.2 = q
      · have hx : ¬ x.2 = q := by
          intro hxq
          rw [hxq, hy] at hxy
          exact lt_irrefl q hxy
        simp [List.filter_cons, beq_iff_eq, hy, hx, ih]
      · simp [List.filter_cons, beq_iff_eq, hy, ih]
    · rw [if_neg hxy]

theorem filter_sortDesc (q : ℚ) (l : List (ℕ × ℚ)) :
    (sortDesc l).filter (fun p => p.2 == q) = l.filter (fun p => p.2 == q) := by
  induction l with
  | nil => rfl
  | cons x xs ih =>
    rw [sortDesc, filter_insertDesc]
    rw [List.filter_cons, List.filter_cons, ih]

/-! ### Lemmas about the product-details dictionary -/

theorem foldl_lastMatch (pid : ℕ) :
    ∀ (ts : List (ℕ × String × String)) (acc : Option (String × String)),
      ts.foldl (fun a t => if t.1 == pid then some t.2 else a) acc
        = (ts.reverse.find? (fun t => t.1 == pid)).elim acc (fun t => some t.2) := by
  intro ts
  induction ts with
  | nil => intro acc; rfl
  | cons x ts ih =>
    intro acc
    rw [List.foldl_cons, ih, List.reverse_cons, List.find?_append]
    cases hf : ts.reverse.find? (fun t => t.1 == pid) with
    | some t => simp [Option.or]
    | none =>
      cases hx : (x.1 == pid) with
      | true => simp [Option.or, List.find?, hx]
      | false => simp [Option.or, List.find?, hx]

theorem productDetailsDict_eq_lastMatch (data : List Row) (pid : ℕ) :
    productDetailsDict data pid = lastMatchDetails data pid := by
  rw [productDetailsDict, lastMatchDetails, foldl_lastMatch]
  cases (distinctTriples data).reverse.find? (fun t => t.1 == pid) with
  | some t => rfl
  | none => rfl

theorem productDetailsDict_isSome (data : List Row) (pid : ℕ)
    (h : pid ∈ allItems data) : ∃ cs, productDetailsDict data pid = some cs := by
  rw [productDetailsDict_eq_lastMatch, lastMatchDetails]
  have hmem : pid ∈ data.map (fun r => r.Product_ID) := (mem_pandasUnique pid _).mp h
  rcases List.mem_map.mp hmem with ⟨r, hr, hrp⟩
  have htriple : (r.Product_ID, r.Category, r.Subcategory) ∈ (distinctTriples data).reverse := by
    rw [List.mem_reverse, distinctTriples, mem_pandasUnique]
    exact List.mem_map.mpr ⟨r, hr, rfl⟩
  have hsome : ((distinctTriples data).reverse.find? (fun t => t.1 == pid)).isSome := by
    rw [List.find?_isSome]
    exact ⟨_, htriple, by simp [hrp]⟩
  rcases Option.isSome_iff_exists.mp hsome with ⟨t, ht⟩
  exact ⟨t.2, by rw [ht]; rfl⟩

/-! ### Lemmas connecting the recommender's stages -/

theorem map_fst_predictions (data : List Row) (uid : ℕ) (model : ℕ → ℕ → ℚ) :
    (predictions data uid model).map (fun p => p.1) = itemsToPredict data uid := by
  rw [predictions, List.map_map]
  exact List.map_id _

theorem mem_getRec (uid n : ℕ) (data : List Row) (model : ℕ → ℕ → ℚ)
    (rec : Recommendation) (h : rec ∈ getRecommendationsForUser uid n data model) :
    ∃ p, p ∈ predictions data uid model ∧ p ∈ (sortDesc (predictions data uid model)).take n
      ∧ rec = detailRec data uid p := by
  rcases List.mem_map.mp h with ⟨p, hp, hrec⟩
  refine ⟨p, ?_, hp, hrec.symm⟩
  exact (perm_sortDesc _).subset ((List.take_sublist n _).subset hp)

theorem fst_mem_itemsToPredict (data : List Row) (uid : ℕ) (model : ℕ → ℕ → ℚ)
    (p : ℕ × ℚ) (h : p ∈ predictions data uid model) : p.1 ∈ itemsToPredict data uid := by
  rcases List.mem_map.mp h with ⟨i, hi, rfl⟩
  exact hi

/-! ### Lemmas about the rating-scale bound -/

theorem foldl_min_le (xs : List ℝ) : ∀ a : ℝ, xs.foldl min a ≤ a := by
  induction xs with
  | nil => intro a; exact le_refl a
  | cons y ys ih =>
    intro a
    exact le_trans (ih (min a y)) (min_le_left a y)

theorem le_foldl_max (xs : List ℝ) : ∀ a : ℝ, a ≤ xs.foldl max a := by
  induction xs with
  | nil => intro a; exact le_refl a
  | cons y ys ih =>
    intro a
    exact le_trans (le_max_left a y) (ih (max a y))

theorem listMin_le_listMax (l : List ℝ) (h : l ≠ []) : listMin l ≤ listMax l := by
  cases l with
  | nil => exact absurd rfl h
  | cons x xs =>
    exact le_trans (foldl_min_le xs x) (le_foldl_max xs x)

/-! ### A zipped column equals the mapped column entrywise -/

theorem zip_map_snd {α β : Type} (f : α → β) :
    ∀ (l : List α) (p : α × β), p ∈ l.zip (l.map f) → p.2 = f p.1 := by
  intro l
  induction l with
  | nil => intro p hp; simp at hp
  | cons x xs ih =>
    intro p hp
    rw [List.map_cons, List.zip_cons_cons] at hp
    rcases List.mem_cons.mp hp with rfl | hp
    · rfl
    · exact ih p hp

/-! ### Claim theorems -/

/-- Claim C1: the set of products scored by `get_recommendations_for_user` is
exactly the distinct product ids of the corpus minus the product ids already
purchased by the customer; consequently no recommended product appears in that
customer's purchase history, and for a customer absent from the corpus the
exclusion set is empty, so every distinct product is a candidate. -/
theorem C1_candidate_set (data : List Row) (uid n i : ℕ) (model : ℕ → ℕ → ℚ)
    (rec : Recommendation) (hrec : rec ∈ getRecommendationsForUser uid n data model) :
    (i ∈ itemsToPredict data uid ↔
      (i ∈ data.map (fun r => r.Product_ID) ∧ i ∉ userItems data uid))
    ∧ rec.Product_ID ∉ (data.filter (fun r => r.Customer_ID == uid)).map (fun r => r.Product_ID)
    ∧ (data.filter (fun r => r.Customer_ID == uid) = [] →
        itemsToPredict data uid = allItems data) := by
  have hmemItems : ∀ j : ℕ, j ∈ itemsToPredict data uid ↔
      (j ∈ data.map (fun r => r.Product_ID) ∧ j ∉ userItems data uid) := by
    intro j
    rw [itemsToPredict, List.mem_filter, allItems, mem_pandasUnique]
    simp
  refine ⟨hmemItems i, ?_, ?_⟩
  · rcases mem_getRec uid n data model rec hrec with ⟨p, hp, _, rfl⟩
    have h1 : p.1 ∈ itemsToPredict data uid := fst_mem_itemsToPredict data uid model p hp
    have h2 : p.1 ∉ userItems data uid := ((hmemItems p.1).mp h1).2
    have hpid : (detailRec data uid p).Product_ID = p.1 := rfl
    rw [hpid]
    intro hmem
    exact h2 ((mem_pandasUnique _ _).mpr hmem)
  · intro hempty
    rw [itemsToPredict]
    apply List.filter_eq_self.mpr
    intro a _
    rw [decide_eq_true_eq, userItems, hempty]
    simp [pandasUnique, pandasUniqueAux]

/-- Witness for C1: concrete corpus `corpusW`, customer 1, candidate product 20
and the produced recommendation `recW`. -/
theorem C1_candidate_set_witness :
    (20 ∈ itemsToPredict corpusW 1 ↔
      (20 ∈ corpusW.map (fun r => r.Product_ID) ∧ 20 ∉ userItems corpusW 1))
    ∧ recW.Product_ID ∉ (corpusW.filter (fun r => r.Customer_ID == 1)).map (fun r => r.Product_ID)
    ∧ (corpusW.filter (fun r => r.Customer_ID == 1) = [] →
        itemsToPredict corpusW 1 = allItems corpusW) :=
  C1_candidate_set corpusW 1 1 20 mOne recW (by with_unfolding_all decide)

/-- Claim C4: the returned sequence is sorted non-increasingly in
`Estimated_Rating`, and candidates with equal estimated ratings keep their
original unsorted enumeration order (stable sort): for every rating `q`, the
products of the returned entries rated `q` form a sublist of the products of
the scored candidates rated `q`, in enumeration order. -/
theorem C4_sorted_stable (data : List Row) (uid n : ℕ) (model : ℕ → ℕ → ℚ) (q : ℚ) :
    ((getRecommendationsForUser uid n data model).map
        (fun r => r.Estimated_Rating)).Pairwise (fun a b => b ≤ a)
    ∧ (((getRecommendationsForUser uid n data model).filter
          (fun r => r.Estimated_Rating == q)).map (fun r => r.Product_ID)).Sublist
        (((predictions data uid model).filter (fun p => p.2 == q)).map (fun p => p.1)) := by
  constructor
  · rw [getRecommendationsForUser, List.map_map, List.pairwise_map]
    have h1 : (sortDesc (predictions data uid model)).Pairwise (fun a b => b.2 ≤ a.2) :=
      pairwise_sortDesc _
    exact h1.sublist (List.take_sublist n _)
  · rw [getRecommendationsForUser, List.filter_map, List.map_map]
    have hs : (((sortDesc (predictions data uid model)).take n).filter
        (fun p => p.2 == q)).Sublist
        ((sortDesc (predictions data uid model)).filter (fun p => p.2 == q)) :=
      (List.take_sublist n _).filter _
    rw [filter_sortDesc] at hs
    exact hs.map (fun p => p.1)

/-- Claim C5: the length of the returned list is `min n candidate_count`, and
when there are at most `n` candidates every candidate product is returned. -/
theorem C5_truncation (data : List Row) (uid n : ℕ) (model : ℕ → ℕ → ℚ) :
    (getRecommendationsForUser uid n data model).length = min n (itemsToPredict data uid).length
    ∧ ((itemsToPredict data uid).length ≤ n →
        ((getRecommendationsForUser uid n data model).map (fun r => r.Product_ID)).Perm
          (itemsToPredict data uid)) := by
  have hlen : (sortDesc (predictions data uid model)).length = (itemsToPredict data uid).length := by
    rw [(perm_sortDesc _).length_eq, predictions, List.length_map]
  constructor
  · rw [getRecommendationsForUser, List.length_map, List.length_take, hlen]
  · intro hle
    rw [getRecommendationsForUser, List.map_map]
    rw [List.take_of_length_le (by rw [hlen]; exact hle)]
    have hperm := (perm_sortDesc (predictions data uid model)).map (fun p => p.1)
    rw [map_fst_predictions] at hperm
    exact hperm

/-- Witness for C5: on `corpusW` customer 1 has a single candidate, so asking
for five recommendations returns exactly that one. -/
theorem C5_truncation_witness :
    (getRecommendationsForUser 1 5 corpusW mOne).length = min 5 (itemsToPredict corpusW 1).length
    ∧ ((getRecommendationsForUser 1 5 corpusW mOne).map (fun r => r.Product_ID)).Perm
        (itemsToPredict corpusW 1) :=
  ⟨(C5_truncation corpusW 1 5 mOne).1, (C5_truncation corpusW 1 5 mOne).2 (by with_unfolding_all decide)⟩

/-- Claim C10: each product id appears at most once in the returned list. -/
theorem C10_nodup (data : List Row) (uid n : ℕ) (model : ℕ → ℕ → ℚ) :
    ((getRecommendationsForUser uid n data model).map (fun r => r.Product_ID)).Nodup := by
  rw [getRecommendationsForUser, List.map_map]
  have h0 : (itemsToPredict data uid).Nodup := (nodup_pandasUnique _).filter _
  have h1 : ((sortDesc (predictions data uid model)).map (fun p => p.1)).Nodup := by
    have hperm := (perm_sortDesc (predictions data uid model)).map (fun p => p.1)
    rw [map_fst_predictions] at hperm
    exact hperm.nodup_iff.mpr h0
  exact h1.sublist ((List.take_sublist n _).map _)

/-! ### Lemmas about the trainer -/

theorem train_ok_cases {M P : Type} (g : List ℚ → List ℚ → List ℚ → M × P)
    (d : Disk M P) (f : Frame) (r : TrainResult M P)
    (hr : train_and_save_model g d f = Except.ok r) :
    requiredPresent f
    ∧ r.disk.modelFile = some r.model
    ∧ r.disk.paramsFile = some r.params
    ∧ (r.retrained = false ↔ (d.modelFile.isSome = true ∧ d.paramsFile.isSome = true))
    ∧ (∀ m0 p0, d.modelFile = some m0 → d.paramsFile = some p0 → r = ⟨m0, p0, d, false⟩) := by
  unfold train_and_save_model at hr
  split at hr
  · rename_i amounts custs prods hA hC hP
    have hreq : requiredPresent f := by
      refine ⟨?_, ?_, ?_⟩
      · rw [hC]; rfl
      · rw [hP]; rfl
      · rw [hA]; rfl
    split at hr
    · rename_i m0 p0 hm0 hp0
      simp only [Except.ok.injEq] at hr
      subst hr
      refine ⟨hreq, hm0, hp0, by simp [hm0, hp0], ?_⟩
      intro m1 p1 hm1 hp1
      rw [hm0] at hm1
      rw [hp0] at hp1
      cases hm1
      cases hp1
      rfl
    · rename_i hm0
      simp only [Except.ok.injEq] at hr
      subst hr
      refine ⟨hreq, rfl, rfl, by simp [hm0], ?_⟩
      intro m1 p1 hm1 hp1
      rw [hm0] at hm1
      cases hm1
    · rename_i hp0
      simp only [Except.ok.injEq] at hr
      subst hr
      refine ⟨hreq, rfl, rfl, by simp [hp0], ?_⟩
      intro m1 p1 hm1 hp1
      rw [hp0] at hp1
      cases hp1
  · simp at hr
  · simp at hr
  · simp at hr

theorem train_load {M P : Type} (g : List ℚ → List ℚ → List ℚ → M × P)
    (d : Disk M P) (f : Frame) (m : M) (p : P)
    (hreq : requiredPresent f) (hm : d.modelFile = some m) (hp : d.paramsFile = some p) :
    train_and_save_model g d f = Except.ok ⟨m, p, d, false⟩ := by
  obtain ⟨h1, h2, h3⟩ := hreq
  rcases Option.isSome_iff_exists.mp h1 with ⟨custs, hC⟩
  rcases Option.isSome_iff_exists.mp h2 with ⟨prods, hP⟩
  rcases Option.isSome_iff_exists.mp h3 with ⟨amounts, hA⟩
  unfold train_and_save_model
  rw [hA, hC, hP, hm, hp]

/-- Claim C3: when both persisted artifacts exist, `train_and_save_model`
returns the stored model unchanged — no retraining and no dependence on the
current corpus or trainer; after any successful call, calling again on the
resulting disk returns an identical result; and the presence of both
artifacts is the sole condition under which retraining is skipped. -/
theorem C3_cache {M P : Type} (g g2 : List ℚ → List ℚ → List ℚ → M × P)
    (d d2 : Disk M P) (f f2 : Frame) (m : M) (p : P) (r r2 : TrainResult M P)
    (hm : d.modelFile = some m) (hp : d.paramsFile = some p)
    (hr : train_and_save_model g d f = Except.ok r)
    (hf2 : requiredPresent f2)
    (hr2 : train_and_save_model g2 d2 f2 = Except.ok r2) :
    r.model = m ∧ r.params = p ∧ r.disk = d ∧ r.retrained = false
    ∧ train_and_save_model g2 d f2 = Except.ok ⟨m, p, d, false⟩
    ∧ (r2.retrained = false ↔ (d2.modelFile.isSome = true ∧ d2.paramsFile.isSome = true))
    ∧ train_and_save_model g2 r2.disk f2 = Except.ok ⟨r2.model, r2.params, r2.disk, false⟩ := by
  obtain ⟨_, _, _, _, h5⟩ := train_ok_cases g d f r hr
  obtain ⟨_, h2a, h3a, h4a, _⟩ := train_ok_cases g2 d2 f2 r2 hr2
  have hrr : r = ⟨m, p, d, false⟩ := h5 m p hm hp
  subst hrr
  exact ⟨rfl, rfl, rfl, rfl,
    train_load g2 d f2 m p hf2 hm hp, h4a,
    train_load g2 r2.disk f2 r2.model r2.params hf2 h2a h3a⟩

/-- Witness for C3 at concrete disks, frames and trainers. -/
theorem C3_cache_witness :
    (⟨1, 2, diskW, false⟩ : TrainResult ℕ ℕ).model = 1
    ∧ (⟨1, 2, diskW, false⟩ : TrainResult ℕ ℕ).params = 2
    ∧ (⟨1, 2, diskW, false⟩ : TrainResult ℕ ℕ).disk = diskW
    ∧ (⟨1, 2, diskW, false⟩ : TrainResult ℕ ℕ).retrained = false
    ∧ train_and_save_model gW2 diskW frameW = Except.ok ⟨1, 2, diskW, false⟩
    ∧ ((⟨9, 9, ⟨some 9, some 9⟩, true⟩ : TrainResult ℕ ℕ).retrained = false
        ↔ (diskEmpty.modelFile.isSome = true ∧ diskEmpty.paramsFile.isSome = true))
    ∧ train_and_save_model gW2 (⟨9, 9, ⟨some 9, some 9⟩, true⟩ : TrainResult ℕ ℕ).disk frameW
        = Except.ok ⟨9, 9, (⟨9, 9, ⟨some 9, some 9⟩, true⟩ : TrainResult ℕ ℕ).disk, false⟩ :=
  C3_cache gW gW2 diskW diskEmpty frameW frameW 1 2 ⟨1, 2, diskW, false⟩
    ⟨9, 9, ⟨some 9, some 9⟩, true⟩ rfl rfl rfl
    ⟨rfl, rfl, rfl⟩ rfl

/-- Claim C8: a corpus missing any of the required columns (customer id,
product id, amount) makes `train_and_save_model` fail with a `KeyError`
configuration error before any training is attempted: the result is an error
and does not depend on the trainer or on the persisted artifacts. -/
theorem C8_missing_columns {M P : Type} (g g2 : List ℚ → List ℚ → List ℚ → M × P)
    (d d2 : Disk M P) (f : Frame)
    (hmiss : f.lookup "Customer_ID" = none ∨ f.lookup "Product_ID" = none
      ∨ f.lookup "Purchase_Amount" = none) :
    isErr (train_and_save_model g d f) = true
    ∧ train_and_save_model g d f = train_and_save_model g2 d2 f := by
  unfold train_and_save_model
  cases hA : f.lookup "Purchase_Amount" with
  | none => exact ⟨rfl, rfl⟩
  | some amounts =>
    cases hC : f.lookup "Customer_ID" with
    | none => exact ⟨rfl, rfl⟩
    | some custs =>
      cases hP : f.lookup "Product_ID" with
      | none => exact ⟨rfl, rfl⟩
      | some prods =>
        rcases hmiss with h | h | h
        · rw [hC] at h; cases h
        · rw [hP] at h; cases h
        · rw [hA] at h; cases h

/-- Witness for C8: a frame lacking the `Purchase_Amount` column. -/
theorem C8_missing_columns_witness :
    isErr (train_and_save_model gW diskEmpty frameMissing) = true
    ∧ train_and_save_model gW diskEmpty frameMissing
        = train_and_save_model gW2 diskW frameMissing :=
  C8_missing_columns gW gW2 diskEmpty diskW frameMissing
    (Or.inr (Or.inr (by with_unfolding_all decide)))

/-! ### Lemmas about the reason clauses -/

theorem user_cat_empty_iff (data : List Row) (uid : ℕ) (cat : String) :
    ((data.filter (fun r => r.Customer_ID == uid)).filter
        (fun r => r.Category == cat)).isEmpty = true
      ↔ ¬ ∃ r ∈ data, r.Customer_ID = uid ∧ r.Category = cat := by
  rw [List.isEmpty_iff, List.eq_nil_iff_forall_not_mem]
  simp [List.mem_filter]
  constructor
  · intro h a ha h1 h2
    exact h a ha h2 h1
  · intro h a ha h2 h1
    exact h a ha h1 h2

theorem user_sub_empty_iff (data : List Row) (uid : ℕ) (cat sub : String) :
    (((data.filter (fun r => r.Customer_ID == uid)).filter
        (fun r => r.Category == cat)).filter (fun r => r.Subcategory == sub)).isEmpty = true
      ↔ ¬ ∃ r ∈ data, r.Customer_ID = uid ∧ r.Category = cat ∧ r.Subcategory = sub := by
  rw [List.isEmpty_iff, List.eq_nil_iff_forall_not_mem]
  simp [List.mem_filter, and_assoc]
  constructor
  · intro h a ha h1 h2 h3
    exact h a ha h3 h2 h1
  · intro h a ha h3 h2 h1
    exact h a ha h1 h2 h3

theorem reasonParts_eq (data : List Row) (uid : ℕ) (cat sub : String) (est : ℚ) :
    reasonParts data uid cat sub est =
      (if ∃ r ∈ data, r.Customer_ID = uid ∧ r.Category = cat then [catClause cat] else [])
        ++ (if ∃ r ∈ data, r.Customer_ID = uid ∧ r.Category = cat ∧ r.Subcategory = sub
            then [subClause sub] else [])
        ++ [popClause (popularityScore data cat sub), ratingClause est] := by
  simp only [reasonParts]
  by_cases h1 : ∃ r ∈ data, r.Customer_ID = uid ∧ r.Category = cat
  · by_cases h2 : ∃ r ∈ data, r.Customer_ID = uid ∧ r.Category = cat ∧ r.Subcategory = sub
    · rw [if_neg (fun he => ((user_cat_empty_iff data uid cat).mp he) h1),
        if_neg (fun he => ((user_sub_empty_iff data uid cat sub).mp he) h2),
        if_pos h1, if_pos h2]
    · rw [if_neg (fun he => ((user_cat_empty_iff data uid cat).mp he) h1),
        if_pos ((user_sub_empty_iff data uid cat sub).mpr h2),
        if_pos h1, if_neg h2]
  · have h2 : ¬ ∃ r ∈ data, r.Customer_ID = uid ∧ r.Category = cat ∧ r.Subcategory = sub := by
      rintro ⟨r, hr, ha, hb, _⟩
      exact h1 ⟨r, hr, ha, hb⟩
    rw [if_pos ((user_cat_empty_iff data uid cat).mpr h1),
      if_pos ((user_sub_empty_iff data uid cat sub).mpr h2),
      if_neg h1, if_neg h2]

/-- Claim C2 (amended): every returned `Reason` is the fixed template around
clauses joined by "; " in the fixed order category-interest, subcategory,
popularity, predicted rating; the category clause is present iff the customer
has a prior purchase in the recommendation's category; the subcategory clause
is present iff the customer has a prior purchase in the recommendation's
category AND that exact subcategory (not merely the subcategory, which is the
correction); the popularity amount is the sum of `Purchase_Amount` over all
corpus rows with the recommendation's category and subcategory; the popularity
and rating clauses are always present. -/
theorem C2_reason (data : List Row) (uid n : ℕ) (model : ℕ → ℕ → ℚ)
    (rec : Recommendation) (hrec : rec ∈ getRecommendationsForUser uid n data model) :
    rec.Reason = mkReason (
      (if ∃ r ∈ data, r.Customer_ID = uid ∧ r.Category = rec.Category
        then [catClause rec.Category] else [])
      ++ (if ∃ r ∈ data, r.Customer_ID = uid ∧ r.Category = rec.Category
            ∧ r.Subcategory = rec.Subcategory
          then [subClause rec.Subcategory] else [])
      ++ [popClause (popularityScore data rec.Category rec.Subcategory),
          ratingClause rec.Estimated_Rating]) := by
  rcases mem_getRec uid n data model rec hrec with ⟨p, _, _, rfl⟩
  have hR : (detailRec data uid p).Reason
      = mkReason (reasonParts data uid (detailRec data uid p).Category
          (detailRec data uid p).Subcategory
          (detailRec data uid p).Estimated_Rating) := rfl
  rw [hR, reasonParts_eq]

/-- Witness for the amended C2: on `dataW2` both conditional clauses fire. -/
theorem C2_reason_witness :
    recW2.Reason = mkReason (
      (if ∃ r ∈ dataW2, r.Customer_ID = 1 ∧ r.Category = recW2.Category
        then [catClause recW2.Category] else [])
      ++ (if ∃ r ∈ dataW2, r.Customer_ID = 1 ∧ r.Category = recW2.Category
            ∧ r.Subcategory = recW2.Subcategory
          then [subClause recW2.Subcategory] else [])
      ++ [popClause (popularityScore dataW2 recW2.Category recW2.Subcategory),
          ratingClause recW2.Estimated_Rating]) :=
  C2_reason dataW2 1 1 mOne recW2 (by with_unfolding_all decide)

/-- Counterexample to C2 as stated: on `dataC2`, customer 1 has a prior
purchase in subcategory "X" (category "A"), the recommendation is for a
product in subcategory "X" of category "B", yet its reason string omits the
subcategory clause — the clause is not governed by the subcategory alone. -/
theorem C2_reason_counterexample :
    (getRecommendationsForUser 1 1 dataC2 mOne).map (fun r => r.Reason)
      = [mkReason [popClause (5:ℚ), ratingClause (1:ℚ)]]
    ∧ (getRecommendationsForUser 1 1 dataC2 mOne).map (fun r => r.Subcategory) = ["X"]
    ∧ dataC2.filter (fun r => r.Customer_ID == 1 && r.Subcategory == "X") ≠ []
    ∧ mkReason [popClause (5:ℚ), ratingClause (1:ℚ)]
        ≠ mkReason [subClause "X", popClause (5:ℚ), ratingClause (1:ℚ)] := by
  with_unfolding_all decide

/-- Claim C7 (amended): the category and subcategory attached to a returned
recommendation are those of the LAST entry with that product id among the
first-occurrence-ordered distinct `(Product_ID, Category, Subcategory)`
triples of the corpus (the dictionary built by `to_dict` lets later distinct
rows overwrite earlier ones), not the first matching row; when the corpus maps
the product id to a single pair the two coincide. -/
theorem C7_details (data : List Row) (uid n : ℕ) (model : ℕ → ℕ → ℚ)
    (rec : Recommendation) (hrec : rec ∈ getRecommendationsForUser uid n data model) :
    lastMatchDetails data rec.Product_ID = some (rec.Category, rec.Subcategory) := by
  rcases mem_getRec uid n data model rec hrec with ⟨p, hp, _, rfl⟩
  have h1 : p.1 ∈ itemsToPredict data uid := fst_mem_itemsToPredict data uid model p hp
  have h2 : p.1 ∈ allItems data := List.mem_of_mem_filter h1
  rcases productDetailsDict_isSome data p.1 h2 with ⟨cs, hcs⟩
  have hpid : (detailRec data uid p).Product_ID = p.1 := rfl
  have hcat : (detailRec data uid p).Category
      = ((productDetailsDict data p.1).getD ("", "")).1 := rfl
  have hsub : (detailRec data uid p).Subcategory
      = ((productDetailsDict data p.1).getD ("", "")).2 := rfl
  rw [hpid, hcat, hsub, ← productDetailsDict_eq_lastMatch, hcs]
  rfl

/-- Witness for the amended C7 on `corpusW`. -/
theorem C7_details_witness :
    lastMatchDetails corpusW recW.Product_ID = some (recW.Category, recW.Subcategory) :=
  C7_details corpusW 1 1 mOne recW (by with_unfolding_all decide)

/-- Counterexample to C7 as stated: in `dataC7` product 1 carries two distinct
category/subcategory pairs; the recommendation attaches the last distinct pair
("B", "Y"), while the first matching corpus row has ("A", "X"). -/
theorem C7_details_counterexample :
    (getRecommendationsForUser 1 1 dataC7 mOne).map (fun r => (r.Category, r.Subcategory))
      = [("B", "Y")]
    ∧ (getRecommendationsForUser 1 1 dataC7 mOne).map (fun r => r.Product_ID) = [1]
    ∧ firstMatchDetails dataC7 1 = some ("A", "X")
    ∧ (("A", "X") : String × String) ≠ ("B", "Y") := by
  with_unfolding_all decide

/-- Claim C6: every scaled rating in the column fed to the fitting library is
`ln (1 + amount)` for the paired purchase amount, so `exp (scaled) - 1`
recovers the original amount exactly (in the real-number model). -/
theorem C6_roundtrip (amounts : List ℝ) (pr : ℝ × ℝ)
    (hmem : pr ∈ amounts.zip (scaledColumn amounts)) (hpos : 0 < pr.1) :
    pr.2 = Real.log (1 + pr.1) ∧ Real.exp pr.2 - 1 = pr.1 := by
  have h2 : pr.2 = log1p pr.1 := zip_map_snd log1p amounts pr hmem
  have hpos1 : (0:ℝ) < 1 + pr.1 := by linarith
  refine ⟨h2, ?_⟩
  rw [h2, log1p, Real.exp_log hpos1]
  ring

/-- Witness for C6 at the amount 3. -/
theorem C6_roundtrip_witness :
    log1p 3 = Real.log (1 + 3) ∧ Real.exp (log1p 3) - 1 = 3 :=
  C6_roundtrip [3] (3, log1p 3) (by simp [scaledColumn]) (by norm_num)

/-- Claim C9: every estimated rating the trained model can produce is clipped
into `[min, max]` of the log-scaled purchase amounts of the training corpus,
because that interval is the rating-scale bound handed to the fitting
library. -/
theorem C9_rating_bounds (amounts : List ℝ) (raw : ℝ) (h : amounts ≠ []) :
    listMin (scaledColumn amounts) ≤ predictClip (ratingScale (scaledColumn amounts)) raw
    ∧ predictClip (ratingScale (scaledColumn amounts)) raw ≤ listMax (scaledColumn amounts) := by
  have hne : scaledColumn amounts ≠ [] := by
    rw [scaledColumn]
    intro hc
    exact h (List.map_eq_nil_iff.mp hc)
  have hlehi : listMin (scaledColumn amounts) ≤ listMax (scaledColumn amounts) :=
    listMin_le_listMax _ hne
  constructor
  · exact le_max_left _ _
  · exact max_le hlehi (min_le_left _ _)

/-- Witness for C9: a one-row corpus and an out-of-range raw estimate. -/
theorem C9_rating_bounds_witness :
    listMin (scaledColumn [1]) ≤ predictClip (ratingScale (scaledColumn [1])) 42
    ∧ predictClip (ratingScale (scaledColumn [1])) 42 ≤ listMax (scaledColumn [1]) :=
  C9_rating_bounds [1] 42 (by simp)
